import Mathlib

/-!
Shallow embedding of the Quantys frontend (React single-page application)
and proofs about its HTTP client hook, workflow orchestrator, progress
indicator, session quick panel and session dashboard.

Conventions of the embedding:
* JavaScript objects whose fields the code reads dynamically are modelled
  either as typed structures with `Option` fields (a `none` field models an
  absent property) or as a `Json` value when the code stores a parsed
  response body wholesale.
* JavaScript truthiness (`x || d`, `if (!x)`) is modelled explicitly by
  `jsTruthy` / `jsOr` helpers.
* Stateful React code is modelled by explicit state passing: each handler
  maps a state (and, for code performing `fetch`, the response the backend
  would give) to the new state together with the list of observable
  effects (toasts shown, network requests issued, hook state updates)
  emitted during the call, in program order.
* Machine integers do not occur; the numeric values involved are small
  integers, modelled as `Int`/`Nat`.
-/

namespace Quantys

/-- Single quote character (U+0027), used to build string constants that
contain apostrophes. -/
def sqc : Char := Char.ofNat 39

/-- Single quote as a one-character string. -/
def sq : String := String.mk [sqc]

/-- Model of a parsed JSON value (the shape `response.json()` yields). -/
inductive Json where
  | null : Json
  | bool : Bool → Json
  | num : Int → Json
  | str : String → Json
  | arr : List Json → Json
  | obj : List (String × Json) → Json

/-- Property lookup on a JSON object: first binding of the key wins;
reading a property of a non-object or a missing property gives `none`
(JavaScript `undefined`). -/
def getField (j : Json) (key : String) : Option Json :=
  match j with
  | .obj fields => lookupField fields key
  | _ => none
where
  lookupField : List (String × Json) → String → Option Json
    | [], _ => none
    | (k, v) :: rest, key => if k = key then some v else lookupField rest key

/-- JavaScript truthiness of a defined value: `null`, `false`, `0` and the
empty string are falsy; arrays and objects are truthy. -/
def jsTruthy : Json → Bool
  | .null => false
  | .bool b => b
  | .num n => n != 0
  | .str s => s != ""
  | .arr _ => true
  | .obj _ => true

/-- Truthiness of a possibly-undefined value (`undefined` is falsy). -/
def jsTruthyOpt : Option Json → Bool
  | none => false
  | some v => jsTruthy v

/-- JavaScript string conversion, as applied when a value is interpolated
into an `Error` message or appended to a `FormData`. -/
def jsToString : Json → String
  | .null => "null"
  | .bool true => "true"
  | .bool false => "false"
  | .num n => toString n
  | .str s => s
  | .arr elems => String.intercalate "," (elems.attach.map fun e => jsToString e.1)
  | .obj _ => "[object Object]"
decreasing_by
  have h := List.sizeOf_lt_of_mem e.2
  simp_wf
  omega

/-- Stringifying a JSON string gives the string itself. -/
theorem jsToString_str (s : String) : jsToString (Json.str s) = s := by
  simp [jsToString]

/-- Model of `v || d` where `v` is a possibly-undefined JSON value and `d`
a string default: the stringified value when truthy, else the default. -/
def jsOrMsg (v : Option Json) (d : String) : String :=
  match v with
  | none => d
  | some j => if jsTruthy j then jsToString j else d

/-- Model of `v || d` for a possibly-absent numeric property (`0` is
falsy, so a stored `0` also yields the default). -/
def jsOrInt (v : Option Int) (d : Int) : Int :=
  match v with
  | none => d
  | some n => if n = 0 then d else n

/-- Model of `v || d` for a possibly-absent string property (the empty
string is falsy). -/
def jsOrStr (v : Option String) (d : String) : String :=
  match v with
  | none => d
  | some s => if s = "" then d else s

/-- `Response.ok`: the HTTP status is in the successful range 200–299. -/
def responseOk (status : Nat) : Bool :=
  decide (200 ≤ status ∧ status ≤ 299)

/-!  ## File objects

Both genuine `File` objects picked by the operator and the hand-built
placeholder objects of the orchestrator are modelled by one structure;
`Option` fields model properties that some of the objects lack.  -/

/-- A value occupying one of the orchestrator's file slots.  A genuine
selected file has `isMock = none` (the property is absent on a DOM
`File`). -/
structure FileObj where
  name : String
  size : Nat
  mimeType : Option String
  lastModified : Option Nat
  isMock : Option Bool
deriving DecidableEq, Repr

/-- Helper `createMockFile(filename, size = 0)` of the orchestrator
(useApi.js, lines 183–191): builds a placeholder file object carrying the
explicit `isMock: true` flag; `now` stands for `Date.now()`. -/
def createMockFile (filename : String) (size : Nat) (now : Nat) : FileObj :=
  { name := filename
    size := size
    mimeType := some (if filename.endsWith ".xlsx" then
      "application/vnd.openxmlformats-officedocument.spreadsheetml.sheet" else "text/csv")
    lastModified := some now
    isMock := some true }

/-!  ## HTTP client hook (`useApi`)  -/

/-- A value appended to a multipart `FormData`. -/
inductive FormValue where
  | fileVal : FileObj → FormValue
  | strVal : String → FormValue
deriving DecidableEq, Repr

/-- A network request as issued by `fetch`: method, URL path below the
API base address, and the multipart form fields (in append order, empty
for requests without a body). -/
structure Request where
  method : String
  url : String
  form : List (String × FormValue)
deriving DecidableEq, Repr

/-- Observable actions of the hook, in program order: updates of the
shared `loading` flag, updates of the shared `error` message, and issued
network requests. -/
inductive HookEvent where
  | setLoading : Bool → HookEvent
  | setError : Option String → HookEvent
  | fetchReq : Request → HookEvent
deriving DecidableEq, Repr

/-- Does a hook event touch the shared `loading` flag? -/
def isLoadingEvent : HookEvent → Bool
  | .setLoading _ => true
  | _ => false

/-- Does a hook event touch the shared `error` message? -/
def isErrorEvent : HookEvent → Bool
  | .setError _ => true
  | _ => false

/-- Options forwarded to the request primitive (`method` defaults to GET,
`form` models a `FormData` body when present). -/
structure RequestOptions where
  method : String
  form : List (String × FormValue)
deriving DecidableEq, Repr

/-- A backend response whose body parses as JSON (the request primitive
always calls `response.json()` before inspecting the status). -/
structure JsonResponse where
  status : Nat
  body : Json

/-- Error message computed by the request primitive for a non-2xx
response: `data.error || "Erreur HTTP: <status>"`. -/
def requestErrorMessage (body : Json) (status : Nat) : String :=
  jsOrMsg (getField body "error") ("Erreur HTTP: " ++ toString status)

/-- Request primitive `makeRequest` of the hook (useApi.js, lines 9–34).
It sets `loading`, clears `error`, issues the fetch, parses the body as
JSON, throws on a non-2xx status (recording the message in the shared
`error` state) and resets `loading` on every exit path (the `finally`
block).  The returned trace lists the hook events in program order. -/
def makeRequest (endpoint : String) (opts : RequestOptions) (resp : JsonResponse) :
    Except String Json × List HookEvent :=
  let req : Request := { method := opts.method, url := endpoint, form := opts.form }
  if responseOk resp.status then
    (Except.ok resp.body,
     [.setLoading true, .setError none, .fetchReq req, .setLoading false])
  else
    let msg := requestErrorMessage resp.body resp.status
    (Except.error msg,
     [.setLoading true, .setError none, .fetchReq req, .setError (some msg),
      .setLoading false])

/-- `uploadFile(file)` (useApi.js, lines 36–44): multipart POST of the
field `file` to `/upload`, through the request primitive. -/
def uploadFile (file : FileObj) (resp : JsonResponse) :
    Except String Json × List HookEvent :=
  makeRequest "/upload"
    { method := "POST", form := [("file", .fileVal file)] } resp

/-- `processFile(file, sessionId, strategy)` (useApi.js, lines 46–56):
multipart POST of the fields `file`, `session_id` and `strategy` to
`/process`, through the request primitive. -/
def processFile (file : FileObj) (sessionId strategy : String) (resp : JsonResponse) :
    Except String Json × List HookEvent :=
  makeRequest "/process"
    { method := "POST"
      form := [("file", .fileVal file), ("session_id", .strVal sessionId),
               ("strategy", .strVal strategy)] } resp

/-- Call of `processFile` without the third argument: the JavaScript
default parameter supplies the strategy `"FIFO"`. -/
def processFileDefault (file : FileObj) (sessionId : String) (resp : JsonResponse) :
    Except String Json × List HookEvent :=
  processFile file sessionId "FIFO" resp

/-- `getSessions()` (useApi.js, lines 100–102): GET `/sessions` through
the request primitive. -/
def getSessions (resp : JsonResponse) : Except String Json × List HookEvent :=
  makeRequest "/sessions" { method := "GET", form := [] } resp

/-- `deleteSession(sessionId)` (useApi.js, lines 104–108): DELETE
`/sessions/{id}` through the request primitive. -/
def deleteSession (sessionId : String) (resp : JsonResponse) :
    Except String Json × List HookEvent :=
  makeRequest ("/sessions/" ++ sessionId) { method := "DELETE", form := [] } resp

/-- `getHealth()` (useApi.js, lines 110–112): GET `/health` through the
request primitive. -/
def getHealth (resp : JsonResponse) : Except String Json × List HookEvent :=
  makeRequest "/health" { method := "GET", form := [] } resp

/-!  ## Content-Disposition filename extraction

All three download call sites run a regular expression of the shape
`filename\*=(?:UTF-8'')?([^;]+)|filename="([^"]+)"|filename=([^;]+)` with
the case-insensitive flag against the header value (the orchestrator's
variants differ only in redundant non-capturing parentheses and in the
spelling `utf-8` of the charset token, both immaterial under the `i`
flag).  The embedding models JavaScript regex search semantics directly:
the engine tries the alternatives in order at each start position,
scanning positions left to right, so the leftmost matching occurrence
wins; the optional charset group backtracks when consuming it would leave
the mandatory capture empty.  -/

/-- Case-insensitive prefix test on character lists (all pattern
characters involved are ASCII, where the JavaScript canonicalisation
agrees with `Char.toLower`). -/
def ciStartsWith : List Char → List Char → Bool
  | [], _ => true
  | _ :: _, [] => false
  | p :: ps, c :: cs => (p.toLower == c.toLower) && ciStartsWith ps cs

/-- Literal characters `filename` of the pattern. -/
def fnPat : List Char := ['f', 'i', 'l', 'e', 'n', 'a', 'm', 'e']

/-- Literal characters of the optional charset token `UTF-8''`. -/
def utf8Marker : List Char := ['U', 'T', 'F', '-', '8', sqc, sqc]

/-- Which capture group of the filename pattern matched. -/
inductive FNGroup where
  | star : FNGroup
  | quoted : FNGroup
  | bare : FNGroup
deriving DecidableEq, Repr

/-- Attempt to match the alternation at one start position, trying the
`filename*=` alternative, then the quoted alternative, then the bare one,
exactly as the regex engine does. -/
def matchFilenameAt (s : List Char) : Option (FNGroup × List Char) :=
  if ciStartsWith fnPat s then
    match s.drop 8 with
    | '*' :: '=' :: r1 =>
      if ciStartsWith utf8Marker r1 then
        let cap := (r1.drop 7).takeWhile (fun c => c ≠ ';')
        if cap.isEmpty then
          -- backtrack: leave the optional charset token unconsumed
          let cap2 := r1.takeWhile (fun c => c ≠ ';')
          if cap2.isEmpty then none else some (.star, cap2)
        else some (.star, cap)
      else
        let cap := r1.takeWhile (fun c => c ≠ ';')
        if cap.isEmpty then none else some (.star, cap)
    | '=' :: r1 =>
      match r1 with
      | '"' :: r2 =>
        let cap := r2.takeWhile (fun c => c ≠ '"')
        if !cap.isEmpty && ((r2.drop cap.length).head? == some '"') then
          some (.quoted, cap)
        else
          -- quoted alternative failed; the bare alternative captures from `"`
          let cap3 := r1.takeWhile (fun c => c ≠ ';')
          if cap3.isEmpty then none else some (.bare, cap3)
      | _ =>
        let cap3 := r1.takeWhile (fun c => c ≠ ';')
        if cap3.isEmpty then none else some (.bare, cap3)
    | _ => none
  else none

/-- Scan of the subject left to right for the first position where the
alternation matches (`String.prototype.match` without the global flag
returns the leftmost match). -/
def findFilenameMatch : List Char → Option (FNGroup × List Char)
  | [] => none
  | c :: rest =>
    match matchFilenameAt (c :: rest) with
    | some r => some r
    | none => findFilenameMatch rest

/-- Numeric value of a hexadecimal digit (code points 0-9, a-f, A-F). -/
def hexDigit (c : Char) : Option Nat :=
  let n := c.toNat
  if 48 ≤ n ∧ n ≤ 57 then some (n - 48)
  else if 97 ≤ n ∧ n ≤ 102 then some (n - 87)
  else if 65 ≤ n ∧ n ≤ 70 then some (n - 55)
  else none

/-- UTF-8 encoding of one character, as the byte values contributed by an
unescaped character of the subject of `decodeURIComponent`. -/
def charUtf8Bytes (c : Char) : List Nat :=
  let n := c.toNat
  if n < 0x80 then [n]
  else if n < 0x800 then [0xC0 + n / 64, 0x80 + n % 64]
  else if n < 0x10000 then [0xE0 + n / 4096, 0x80 + n / 64 % 64, 0x80 + n % 64]
  else [0xF0 + n / 262144, 0x80 + n / 4096 % 64, 0x80 + n / 64 % 64, 0x80 + n % 64]

/-- Byte stream denoted by the argument of `decodeURIComponent`: each
`%XX` escape contributes one byte, every other character contributes its
UTF-8 bytes; `none` when a `%` is not followed by two hexadecimal digits
(the `URIError` case). -/
def percentDecodeBytes : List Char → Option (List Nat)
  | [] => some []
  | '%' :: h1 :: h2 :: rest =>
    match hexDigit h1, hexDigit h2 with
    | some a, some b => (percentDecodeBytes rest).map (fun bs => (16 * a + b) :: bs)
    | _, _ => none
  | '%' :: _ :: [] => none
  | ['%'] => none
  | c :: rest => (percentDecodeBytes rest).map (fun bs => charUtf8Bytes c ++ bs)

/-- Is the byte a UTF-8 continuation byte? -/
def isCont (b : Nat) : Bool := 0x80 ≤ b && b ≤ 0xBF

/-- Strict UTF-8 decoding of a byte stream; `none` on any malformed
sequence (overlong forms, surrogates, out-of-range code points,
truncated sequences), matching the `URIError` conditions of
`decodeURIComponent`. -/
def utf8Decode : List Nat → Option (List Char)
  | [] => some []
  | b :: rest =>
    if b < 0x80 then (utf8Decode rest).map (fun cs => Char.ofNat b :: cs)
    else if b < 0xC2 then none
    else if b < 0xE0 then
      match rest with
      | b2 :: rest2 =>
        if isCont b2 then
          (utf8Decode rest2).map (fun cs => Char.ofNat ((b - 0xC0) * 64 + (b2 - 0x80)) :: cs)
        else none
      | [] => none
    else if b < 0xF0 then
      match rest with
      | b2 :: b3 :: rest3 =>
        if isCont b2 && isCont b3 then
          let cp := (b - 0xE0) * 4096 + (b2 - 0x80) * 64 + (b3 - 0x80)
          if 0x800 ≤ cp && (cp < 0xD800 || 0xDFFF < cp) then
            (utf8Decode rest3).map (fun cs => Char.ofNat cp :: cs)
          else none
        else none
      | _ => none
    else if b < 0xF5 then
      match rest with
      | b2 :: b3 :: b4 :: rest4 =>
        if isCont b2 && isCont b3 && isCont b4 then
          let cp := (b - 0xF0) * 262144 + (b2 - 0x80) * 4096 + (b3 - 0x80) * 64 + (b4 - 0x80)
          if 0x10000 ≤ cp && cp ≤ 0x10FFFF then
            (utf8Decode rest4).map (fun cs => Char.ofNat cp :: cs)
          else none
        else none
      | _ => none
    else none

/-- Model of `decodeURIComponent`: `none` models the thrown `URIError`. -/
def decodeURIComponent (s : String) : Option String :=
  ((percentDecodeBytes s.toList).bind utf8Decode).map String.mk

/-- Model of `String.prototype.trim`: strip leading and trailing
whitespace (the headers involved only carry ASCII whitespace, where the
JavaScript white-space set and `Char.isWhitespace` agree). -/
def jsTrim (s : String) : String :=
  String.mk (((s.toList.dropWhile Char.isWhitespace).reverse.dropWhile
    Char.isWhitespace).reverse)

/-- Filename selected from a Content-Disposition header value, shared by
the three download call sites: the leftmost regex match decides the
group; the `filename*` capture is percent-decoded, falling back to the
raw capture when decoding fails; the quoted capture is taken verbatim;
the bare capture is trimmed.  `none` when the header matches no
alternative. -/
def extractFilename (header : String) : Option String :=
  match findFilenameMatch header.toList with
  | none => none
  | some (.star, cap) =>
    let raw := String.mk cap
    some (match decodeURIComponent raw with
      | some d => d
      | none => raw)
  | some (.quoted, cap) => some (String.mk cap)
  | some (.bare, cap) => some (jsTrim (String.mk cap))

/-- Filename computed by the hook's `downloadFile` (useApi.js, lines
69–85): extraction from the header when present and matching, else the
default `{type}_{sessionId}.xlsx` for the template type and
`{type}_{sessionId}.csv` otherwise. -/
def downloadFileFilename (type sessionId : String) (contentDisposition : Option String) :
    String :=
  let dflt := type ++ "_" ++ sessionId ++ "." ++ (if type = "template" then "xlsx" else "csv")
  match contentDisposition with
  | none => dflt
  | some h =>
    match extractFilename h with
    | some f => f
    | none => dflt

/-- Filename computed by the orchestrator's `handleDownloadTemplate`
(useApi.js/App, lines 272–293): same extraction, default
`inventaire_template_{sessionId}.xlsx`. -/
def templateFilename (sessionId : String) (contentDisposition : Option String) : String :=
  let dflt := "inventaire_template_" ++ sessionId ++ ".xlsx"
  match contentDisposition with
  | none => dflt
  | some h =>
    match extractFilename h with
    | some f => f
    | none => dflt

/-- Filename computed by the orchestrator's `handleDownloadFinalFile`
(useApi.js/App, lines 382–401): same extraction, default
`inventaire_corrige_{sessionId}.csv`. -/
def finalFilename (sessionId : String) (contentDisposition : Option String) : String :=
  let dflt := "inventaire_corrige_" ++ sessionId ++ ".csv"
  match contentDisposition with
  | none => dflt
  | some h =>
    match extractFilename h with
    | some f => f
    | none => dflt

/-- A backend response to a download request: the blob size, the
Content-Disposition header, and the JSON body read on the error path. -/
structure BlobResponse where
  status : Nat
  errBody : Json
  blobSize : Nat
  contentDisposition : Option String

/-- Result of the hook's `downloadFile`. -/
structure DownloadResult where
  filename : String
  size : Nat
deriving DecidableEq, Repr

/-- `downloadFile(type, sessionId)` of the hook (useApi.js, lines 58–98):
a direct `fetch` of `/download/{type}/{sessionId}` that never goes
through the request primitive and never updates the shared
loading/error state; on a non-2xx status it throws
`errorData.error || "Erreur de téléchargement"`, on success it resolves
the filename from the Content-Disposition header, triggers the browser
download (a DOM side effect outside this model) and returns the filename
and the blob size. -/
def downloadFile (type sessionId : String) (resp : BlobResponse) :
    Except String DownloadResult × List HookEvent :=
  let req : Request :=
    { method := "GET", url := "/download/" ++ type ++ "/" ++ sessionId, form := [] }
  if responseOk resp.status then
    (Except.ok
      { filename := downloadFileFilename type sessionId resp.contentDisposition
        size := resp.blobSize },
     [.fetchReq req])
  else
    (Except.error (jsOrMsg (getField resp.errBody "error") "Erreur de téléchargement"),
     [.fetchReq req])

/-!  ## Sessions  -/

/-- Nested stats record of a backend `Session` object; each field models
the correspondingly named JSON property, `none` when absent. -/
structure SessionStats where
  nb_articles : Option Int
  total_quantity : Option Int
  nb_lots : Option Int
  total_discrepancy : Option Int
  adjusted_items_count : Option Int
  strategy_used : Option String
deriving DecidableEq, Repr

/-- A backend `Session` object as read by the components (fields the code
accesses; `none` models an absent property). -/
structure Session where
  id : String
  status : String
  original_filename : Option String
  created_at : Option String
  stats : Option SessionStats
deriving DecidableEq, Repr

/-!  ## Root workflow orchestrator  -/

/-- Kind of a toast notification. -/
inductive ToastKind where
  | success : ToastKind
  | error : ToastKind
  | info : ToastKind
deriving DecidableEq, Repr

/-- Observable effects of an orchestrator handler, in program order. -/
inductive AppEffect where
  | toast : ToastKind → String → AppEffect
  | request : Request → AppEffect
deriving DecidableEq, Repr

/-- Is the effect a network request? -/
def isRequestEffect : AppEffect → Bool
  | .request _ => true
  | _ => false

/-- Workflow state owned by the root orchestrator (useApi.js/App, lines
138–154).  Stored upload/process results keep the raw JSON object the
code stores (`setUploadResult(data)` / `setProcessResult(data)`), which
is also the shape `handleSessionSelect` synthesizes. -/
structure AppState where
  originalFile : Option FileObj
  completedFile : Option FileObj
  uploadStatus : String
  processStatus : String
  uploadResult : Option Json
  processResult : Option Json
  error : String
  currentStep : Nat
  progressDetails : String

/-- Orchestrator state at mount: both slots empty, both phases idle. -/
def initialAppState : AppState :=
  { originalFile := none
    completedFile := none
    uploadStatus := "idle"
    processStatus := "idle"
    uploadResult := none
    processResult := none
    error := ""
    currentStep := 0
    progressDetails := "" }

/-- `handleProcessCompleted` of the orchestrator (useApi.js/App, lines
313–358): validates the completed-file slot and the Phase-1 session id,
then posts the multipart form — fields `file` and `session_id` only — to
`/process` and folds the response into Phase-2 state.  `resp` is the
response the backend gives when the request is issued. -/
def handleProcessCompleted (st : AppState) (resp : JsonResponse) :
    AppState × List AppEffect :=
  match st.completedFile with
  | none =>
    let msg := "Veuillez sélectionner le fichier Excel complété"
    ({ st with error := msg }, [.toast .error msg])
  | some file =>
    let sid := st.uploadResult.bind (fun ur => getField ur "session_id")
    if jsTruthyOpt sid then
      let sidStr := jsToString (sid.getD Json.null)
      let req : Request :=
        { method := "POST", url := "/process"
          form := [("file", .fileVal file), ("session_id", .strVal sidStr)] }
      let st1 := { st with
        processStatus := "processing"
        currentStep := 3
        progressDetails := "Calcul des écarts et répartition FIFO en cours..."
        error := "" }
      if responseOk resp.status then
        ({ st1 with
            processStatus := "success"
            processResult := some resp.body
            currentStep := 4
            progressDetails := "Fichier final généré et prêt au téléchargement" },
         [.request req, .toast .success "Traitement terminé avec succès !"])
      else
        let msg := jsOrMsg (getField resp.body "error") "Erreur lors du calcul des écarts"
        ({ st1 with
            processStatus := "error"
            error := msg
            processResult := none
            progressDetails := "" },
         [.request req, .toast .error msg])
    else
      let msg := "Veuillez d" ++ sq ++ "abord importer et traiter le fichier original."
      ({ st with error := msg }, [.toast .error msg])

/-- `handleSessionSelect` of the orchestrator (useApi.js/App, lines
436–493): resets the file slots and the error, builds the original-file
placeholder (an object literal with only `name` and `size`), and
reconstructs phase state from the session's status and stats; no `fetch`
occurs anywhere in the handler. -/
def handleSessionSelect (session : Session) (st : AppState) :
    AppState × List AppEffect :=
  let st0 := { st with originalFile := none, completedFile := none, error := "" }
  let mockOriginalFile : FileObj :=
    { name := jsOrStr session.original_filename "Fichier original"
      size := 0
      mimeType := none
      lastModified := none
      isMock := none }
  if session.status = "template_generated" ∨ session.status = "completed" then
    let st1 := { st0 with
      originalFile := some mockOriginalFile
      uploadStatus := "success"
      uploadResult := some (Json.obj
        [("session_id", Json.str session.id),
         ("stats", Json.obj
           [("nb_articles",
             Json.num (jsOrInt (session.stats.bind SessionStats.nb_articles) 0)),
            ("total_quantity",
             Json.num (jsOrInt (session.stats.bind SessionStats.total_quantity) 0)),
            ("nb_lots",
             Json.num (jsOrInt (session.stats.bind SessionStats.nb_lots) 0))])]) }
    if session.status = "completed" then
      ({ st1 with
          processStatus := "success"
          currentStep := 4
          progressDetails := "Session terminée - Fichier final disponible"
          processResult := some (Json.obj
            [("final_url", Json.str ("/api/download/final/" ++ session.id)),
             ("stats", Json.obj
               [("total_discrepancy",
                 Json.num (jsOrInt (session.stats.bind SessionStats.total_discrepancy) 0)),
                ("adjusted_items",
                 Json.num (jsOrInt (session.stats.bind SessionStats.adjusted_items_count) 0)),
                ("strategy_used",
                 Json.str (jsOrStr (session.stats.bind SessionStats.strategy_used) "FIFO"))])]) },
       [.toast .success ("Session " ++ session.id ++ " reprise - Traitement terminé")])
    else
      ({ st1 with
          processStatus := "idle"
          processResult := none
          currentStep := 1
          progressDetails := "Template disponible pour téléchargement" },
       [.toast .success ("Session " ++ session.id ++ " reprise - Template disponible")])
  else
    ({ st0 with currentStep := 0, progressDetails := "" },
     [.toast .info
       ("Session " ++ session.id ++ " sélectionnée (statut: " ++ session.status ++ ")")])

/-!  ## Progress indicator  -/

/-- `getStepStatus` of the progress indicator
(ProgressIndicator.jsx, lines 11–19). -/
def getStepStatus (currentStep : Nat) (status : String) (stepIndex : Nat) : String :=
  if stepIndex < currentStep then "completed"
  else if stepIndex = currentStep then
    if status = "error" then "error"
    else if status = "processing" ∨ status = "uploading" then "processing"
    else "current"
  else "pending"

/-- Global percentage of the progress indicator
(ProgressIndicator.jsx, line 120):
`Math.round((currentStep / (steps.length - 1)) * 100)`, modelled over the
rationals (`Math.round` rounds half towards positive infinity, as
Mathlib's `round` does). -/
def progressPercent (currentStep totalSteps : Nat) : Int :=
  round (((currentStep : ℚ) / ((totalSteps : ℚ) - 1)) * 100)

/-!  ## Session quick panel (SessionManager)  -/

/-- One status-gated button of a quick-panel session row. -/
structure ActionButton where
  action : String
  label : String
  disabled : Bool
deriving DecidableEq, Repr

/-- Status-gated action buttons of a quick-panel session row
(SessionManager.jsx, lines 207–262): the three conditional blocks, in
render order.  The always-present delete button (line 264) is outside
this gated group. -/
def sessionActions (status : String) : List ActionButton :=
  (if status = "template_generated" then
    [{ action := "download_template", label := "Template", disabled := false },
     { action := "resume", label := "Reprendre", disabled := false }]
   else []) ++
  (if status = "completed" then
    [{ action := "download_template", label := "Template", disabled := false },
     { action := "download_final", label := "Final", disabled := false },
     { action := "resume", label := "Reprendre", disabled := false }]
   else []) ++
  (if !(["template_generated", "completed"].contains status) then
    [{ action := "resume"
       label := if status = "error" then "Erreur"
         else if status = "processing" then "En cours..." else "Reprendre"
       disabled := status == "error" || status == "processing" }]
   else [])

/-!  ## Session dashboard: bulk delete  -/

/-- Sequential body of the bulk-delete loop (SessionDashboard, lines
102–104): one awaited `deleteSession` call per selected id, in selection
order; a rejection aborts the loop (the surrounding `try` jumps to the
`catch`).  `del` abstracts the backend's answer to each delete call.
Returns the ids for which a request was issued, in issue order, and the
error of the aborting rejection when one occurred. -/
def bulkDeleteLoop (del : String → Except String Unit) :
    List String → List String × Option String
  | [] => ([], none)
  | id :: rest =>
    match del id with
    | .ok _ =>
      let r := bulkDeleteLoop del rest
      (id :: r.1, r.2)
    | .error e => ([id], some e)

/-- `handleBulkAction` of the dashboard (SessionDashboard, lines 96–116),
restricted to its data flow: given the bulk action name, the selected ids
and the in-memory session list, returns the new session list, the new
selection and the trace of issued delete requests.  The `delete` action
runs the sequential loop and, when every call succeeded, removes the
selected sessions locally and clears the selection; a rejection leaves
list and selection untouched (the `catch` only logs).  The `archive`
action and unknown actions issue no request and only clear the
selection. -/
def handleBulkAction (del : String → Except String Unit) (action : String)
    (selectedSessions : List String) (sessions : List Session) :
    List Session × List String × List String :=
  if selectedSessions.isEmpty then (sessions, selectedSessions, [])
  else if action = "delete" then
    let r := bulkDeleteLoop del selectedSessions
    match r.2 with
    | none => (sessions.filter (fun s => !(selectedSessions.contains s.id)), [], r.1)
    | some _ => (sessions, selectedSessions, r.1)
  else (sessions, [], [])

/-!  ## Derived observation helpers  -/

/-- Network requests occurring in a hook event trace, in program order. -/
def hookRequests (evs : List HookEvent) : List Request :=
  evs.filterMap fun e =>
    match e with
    | .fetchReq r => some r
    | _ => none

/-- Network requests occurring in an orchestrator effect list. -/
def appRequests (effs : List AppEffect) : List Request :=
  effs.filterMap fun e =>
    match e with
    | .request r => some r
    | _ => none

/-- Stat field of a stored upload/process result object:
`result?.stats?.[key]`. -/
def resultStat (r : Option Json) (key : String) : Option Json :=
  (r.bind (fun j => getField j "stats")).bind (fun s => getField s key)

/-- Top-level field of a stored result object: `result?.[key]`. -/
def resultField (r : Option Json) (key : String) : Option Json :=
  r.bind (fun j => getField j key)

/-- With default `0`, the JavaScript `|| 0` on an optional number is the
plain `Option.getD 0`. -/
theorem jsOrInt_zero (v : Option Int) : jsOrInt v 0 = v.getD 0 := by
  cases v with
  | none => rfl
  | some n =>
    by_cases h : n = 0 <;> simp [jsOrInt, h]

/-!  ## C1 — behaviour of the request primitive  -/

/-- C1 (amended): for a response whose body parsed as JSON, the request
primitive returns the body on a 2xx status; on a non-2xx status it throws
exactly the body's `error` string when that string is non-empty, and the
generated message `Erreur HTTP: <status>` when the body has no `error`
field. -/
theorem C1_request_primitive (endpoint : String) (opts : RequestOptions)
    (status : Nat) (body : Json) :
    (responseOk status = true →
      (makeRequest endpoint opts { status := status, body := body }).1 =
        Except.ok body) ∧
    (responseOk status = false →
      ∀ s : String, s ≠ "" → getField body "error" = some (Json.str s) →
        (makeRequest endpoint opts { status := status, body := body }).1 =
          Except.error s) ∧
    (responseOk status = false → getField body "error" = none →
      (makeRequest endpoint opts { status := status, body := body }).1 =
        Except.error ("Erreur HTTP: " ++ toString status)) := by
  refine ⟨fun hok => ?_, fun hko s hs hf => ?_, fun hko hf => ?_⟩
  · simp [makeRequest, hok]
  · simp [makeRequest, hko, requestErrorMessage, hf, jsOrMsg, jsTruthy, jsToString_str,
      bne_iff_ne, hs]
  · simp [makeRequest, hko, requestErrorMessage, hf, jsOrMsg]

/-- C1 witness: the three cases of `C1_request_primitive` at concrete
responses. -/
theorem C1_witness :
    (makeRequest "/sessions" { method := "GET", form := [] }
        { status := 200, body := Json.obj [("sessions", Json.arr [])] }).1 =
      Except.ok (Json.obj [("sessions", Json.arr [])]) ∧
    (makeRequest "/upload" { method := "POST", form := [] }
        { status := 404, body := Json.obj [("error", Json.str "Session introuvable")] }).1 =
      Except.error "Session introuvable" ∧
    (makeRequest "/health" { method := "GET", form := [] }
        { status := 500, body := Json.obj [("detail", Json.str "boom")] }).1 =
      Except.error ("Erreur HTTP: " ++ toString 500) :=
  ⟨(C1_request_primitive "/sessions" { method := "GET", form := [] } 200
      (Json.obj [("sessions", Json.arr [])])).1 (by decide),
   (C1_request_primitive "/upload" { method := "POST", form := [] } 404
      (Json.obj [("error", Json.str "Session introuvable")])).2.1 (by decide)
      "Session introuvable" (by decide) rfl,
   (C1_request_primitive "/health" { method := "GET", form := [] } 500
      (Json.obj [("detail", Json.str "boom")])).2.2 (by decide) rfl⟩

/-- C1 counterexample: a non-2xx response whose body carries the `error`
string field `""` raises the generated status message, not that (empty)
string — JavaScript `data.error || ...` tests truthiness, and the empty
string is falsy. -/
theorem C1_counterexample :
    (makeRequest "/upload" { method := "POST", form := [] }
        { status := 500, body := Json.obj [("error", Json.str "")] }).1 =
      Except.error "Erreur HTTP: 500" ∧
    getField (Json.obj [("error", Json.str "")]) "error" = some (Json.str "") ∧
    ("Erreur HTTP: 500" : String) ≠ "" := by
  refine ⟨rfl, rfl, by decide⟩

/-!  ## C2 — Content-Disposition filename extraction  -/

/-- Header with a quoted filename, as in the spec's example. -/
def quotedHeader : String := "attachment; filename=\"report.csv\""

/-- Header with an extended `filename*` form, as in the spec's example. -/
def starHeader : String :=
  "attachment; filename*=UTF-8" ++ sq ++ sq ++ "r%C3%A9sum%C3%A9.csv"

/-- Header containing a bare `filename=` directive before a `filename*`
directive. -/
def mixedHeader : String :=
  "attachment; filename=plain.csv; filename*=UTF-8" ++ sq ++ sq ++ "r%C3%A9sum%C3%A9.csv"

/-- C2 (amended): when the header is absent each call site falls back to
its default naming scheme (`{type}_{sessionId}` with `.xlsx` exactly for
the template type for the hook; `inventaire_template_{sessionId}.xlsx`
and `inventaire_corrige_{sessionId}.csv` for the orchestrator paths), and
likewise when the header matches none of the three filename forms; the
spec's concrete examples hold at all three call sites.  The three forms
are not tried in the claimed fixed precedence, however: the leftmost
directive in the header wins (see the counterexample). -/
theorem C2_filename_extraction :
    (∀ type sessionId : String, downloadFileFilename type sessionId none =
      type ++ "_" ++ sessionId ++ "." ++ (if type = "template" then "xlsx" else "csv")) ∧
    (∀ sessionId : String,
      templateFilename sessionId none = "inventaire_template_" ++ sessionId ++ ".xlsx") ∧
    (∀ sessionId : String,
      finalFilename sessionId none = "inventaire_corrige_" ++ sessionId ++ ".csv") ∧
    (∀ type sessionId h : String, findFilenameMatch h.toList = none →
      downloadFileFilename type sessionId (some h) = downloadFileFilename type sessionId none ∧
      templateFilename sessionId (some h) = templateFilename sessionId none ∧
      finalFilename sessionId (some h) = finalFilename sessionId none) ∧
    downloadFileFilename "final" "s1" (some quotedHeader) = "report.csv" ∧
    downloadFileFilename "template" "s1" (some starHeader) = "résumé.csv" ∧
    templateFilename "s1" (some quotedHeader) = "report.csv" ∧
    templateFilename "s1" (some starHeader) = "résumé.csv" ∧
    finalFilename "s1" (some quotedHeader) = "report.csv" ∧
    finalFilename "s1" (some starHeader) = "résumé.csv" := by
  refine ⟨fun type sessionId => rfl, fun sessionId => rfl, fun sessionId => rfl,
    fun type sessionId h hm => ?_, rfl, rfl, rfl, rfl, rfl, rfl⟩
  have hm' : findFilenameMatch h.data = none := hm
  refine ⟨?_, ?_, ?_⟩ <;>
    simp [downloadFileFilename, templateFilename, finalFilename, extractFilename, hm']

/-- C2 witness: a header matching none of the three forms falls back to
each call site's default. -/
theorem C2_witness :
    downloadFileFilename "final" "s1" (some "attachment") =
      downloadFileFilename "final" "s1" none ∧
    templateFilename "s1" (some "attachment") = templateFilename "s1" none ∧
    finalFilename "s1" (some "attachment") = finalFilename "s1" none :=
  C2_filename_extraction.2.2.2.1 "final" "s1" "attachment" rfl

/-- C2 counterexample: in a header where a bare `filename=` directive
precedes a `filename*` directive, every call site extracts the bare
filename — the regex takes the leftmost match, so `filename*` does not
take precedence as claimed. -/
theorem C2_counterexample :
    downloadFileFilename "template" "s1" (some mixedHeader) = "plain.csv" ∧
    templateFilename "s1" (some mixedHeader) = "plain.csv" ∧
    finalFilename "s1" (some mixedHeader) = "plain.csv" ∧
    ("plain.csv" : String) ≠ "résumé.csv" := by
  refine ⟨by decide, by decide, by decide, by decide⟩

/-!  ## C3 / C4 — session resumption  -/

/-- C3: for a session whose status is `template_generated` or
`completed`, resumption sets Phase-1 to `success` with an UploadResult
holding the session's id and its stats with missing numeric stats
defaulted to `0`; when the status is `completed` it additionally sets
Phase-2 to `success`, the step index to `4`, and synthesizes a
ProcessResult whose final-file reference is the literal path
`/api/download/final/{session.id}`, whose missing discrepancy and
adjusted-item counts default to `0` and whose missing strategy defaults
to `FIFO`; when the status is `template_generated` the step index
becomes `1` and Phase-2 is `idle`; and in every case the handler issues
no network request. -/
theorem C3_session_resumption (session : Session) (st : AppState) :
    (session.status = "template_generated" ∨ session.status = "completed" →
      (handleSessionSelect session st).1.uploadStatus = "success" ∧
      resultField (handleSessionSelect session st).1.uploadResult "session_id" =
        some (Json.str session.id) ∧
      resultStat (handleSessionSelect session st).1.uploadResult "nb_articles" =
        some (Json.num ((session.stats.bind SessionStats.nb_articles).getD 0)) ∧
      resultStat (handleSessionSelect session st).1.uploadResult "total_quantity" =
        some (Json.num ((session.stats.bind SessionStats.total_quantity).getD 0)) ∧
      resultStat (handleSessionSelect session st).1.uploadResult "nb_lots" =
        some (Json.num ((session.stats.bind SessionStats.nb_lots).getD 0))) ∧
    (session.status = "completed" →
      (handleSessionSelect session st).1.processStatus = "success" ∧
      (handleSessionSelect session st).1.currentStep = 4 ∧
      resultField (handleSessionSelect session st).1.processResult "final_url" =
        some (Json.str ("/api/download/final/" ++ session.id)) ∧
      resultStat (handleSessionSelect session st).1.processResult "total_discrepancy" =
        some (Json.num ((session.stats.bind SessionStats.total_discrepancy).getD 0)) ∧
      resultStat (handleSessionSelect session st).1.processResult "adjusted_items" =
        some (Json.num ((session.stats.bind SessionStats.adjusted_items_count).getD 0)) ∧
      (session.stats.bind SessionStats.strategy_used = none →
        resultStat (handleSessionSelect session st).1.processResult "strategy_used" =
          some (Json.str "FIFO")) ∧
      (∀ s : String, s ≠ "" → session.stats.bind SessionStats.strategy_used = some s →
        resultStat (handleSessionSelect session st).1.processResult "strategy_used" =
          some (Json.str s))) ∧
    (session.status = "template_generated" →
      (handleSessionSelect session st).1.currentStep = 1 ∧
      (handleSessionSelect session st).1.processStatus = "idle") ∧
    appRequests (handleSessionSelect session st).2 = [] := by
  refine ⟨fun h => ?_, fun h => ?_, fun h => ?_, ?_⟩
  · rcases h with h | h <;>
      simp [handleSessionSelect, h, resultField, resultStat, getField,
        getField.lookupField, jsOrInt_zero]
  · refine ⟨?_, ?_, ?_, ?_, ?_, fun hn => ?_, fun s hs hsome => ?_⟩
    · simp [handleSessionSelect, h]
    · simp [handleSessionSelect, h]
    · simp [handleSessionSelect, h, resultField, getField, getField.lookupField]
    · simp [handleSessionSelect, h, resultStat, getField, getField.lookupField, jsOrInt_zero]
    · simp [handleSessionSelect, h, resultStat, getField, getField.lookupField, jsOrInt_zero]
    · simp [handleSessionSelect, h, resultStat, getField, getField.lookupField, hn, jsOrStr]
    · simp [handleSessionSelect, h, resultStat, getField, getField.lookupField, hsome,
        jsOrStr, hs]
  · simp [handleSessionSelect, h]
  · unfold handleSessionSelect
    dsimp only
    split
    · split <;> rfl
    · rfl

/-- Example session of the spec: completed, with stats
`nb_articles 5, total_quantity 200, total_discrepancy 12,
adjusted_items_count 4, strategy_used "LIFO"`. -/
def c3Session : Session :=
  { id := "abc123"
    status := "completed"
    original_filename := some "inv.csv"
    created_at := none
    stats := some
      { nb_articles := some 5
        total_quantity := some 200
        nb_lots := none
        total_discrepancy := some 12
        adjusted_items_count := some 4
        strategy_used := some "LIFO" } }

/-- C3 witness: the spec's resumption example, reconstructed without any
network request. -/
theorem C3_witness :
    (handleSessionSelect c3Session initialAppState).1.uploadStatus = "success" ∧
    resultStat (handleSessionSelect c3Session initialAppState).1.uploadResult
      "nb_articles" = some (Json.num 5) ∧
    resultStat (handleSessionSelect c3Session initialAppState).1.uploadResult
      "total_quantity" = some (Json.num 200) ∧
    (handleSessionSelect c3Session initialAppState).1.processStatus = "success" ∧
    (handleSessionSelect c3Session initialAppState).1.currentStep = 4 ∧
    resultStat (handleSessionSelect c3Session initialAppState).1.processResult
      "total_discrepancy" = some (Json.num 12) ∧
    resultStat (handleSessionSelect c3Session initialAppState).1.processResult
      "adjusted_items" = some (Json.num 4) ∧
    resultStat (handleSessionSelect c3Session initialAppState).1.processResult
      "strategy_used" = some (Json.str "LIFO") ∧
    appRequests (handleSessionSelect c3Session initialAppState).2 = [] := by
  have h := C3_session_resumption c3Session initialAppState
  exact ⟨(h.1 (Or.inr rfl)).1, (h.1 (Or.inr rfl)).2.2.1, (h.1 (Or.inr rfl)).2.2.2.1,
    (h.2.1 rfl).1, (h.2.1 rfl).2.1, (h.2.1 rfl).2.2.2.1, (h.2.1 rfl).2.2.2.2.1,
    (h.2.1 rfl).2.2.2.2.2.2 "LIFO" (by decide) rfl, h.2.2.2⟩

/-- C4 (amended): for a session whose status is outside
`{template_generated, completed}`, resumption leaves both results and
both phase statuses unchanged and produces exactly one informational
toast naming the session id and its raw status, with no network request
— but it does not leave the file slots untouched: the handler's initial
reset clears both file slots and the error text, sets the step index to
`0` and clears the progress details. -/
theorem C4_other_status (session : Session) (st : AppState)
    (h1 : session.status ≠ "template_generated") (h2 : session.status ≠ "completed") :
    (handleSessionSelect session st).1.uploadStatus = st.uploadStatus ∧
    (handleSessionSelect session st).1.processStatus = st.processStatus ∧
    (handleSessionSelect session st).1.uploadResult = st.uploadResult ∧
    (handleSessionSelect session st).1.processResult = st.processResult ∧
    (handleSessionSelect session st).1.originalFile = none ∧
    (handleSessionSelect session st).1.completedFile = none ∧
    (handleSessionSelect session st).1.error = "" ∧
    (handleSessionSelect session st).1.currentStep = 0 ∧
    (handleSessionSelect session st).1.progressDetails = "" ∧
    (handleSessionSelect session st).2 =
      [AppEffect.toast ToastKind.info
        ("Session " ++ session.id ++ " sélectionnée (statut: " ++ session.status ++ ")")] := by
  simp [handleSessionSelect, h1, h2]

/-- Session with status `processing`, as in the spec's example. -/
def c4Session : Session :=
  { id := "s9"
    status := "processing"
    original_filename := some "a.csv"
    created_at := none
    stats := none }

/-- Orchestrator state holding a genuine selected original file. -/
def c4State : AppState :=
  { initialAppState with
    originalFile := some
      { name := "a.csv", size := 42, mimeType := none, lastModified := none,
        isMock := none } }

/-- C4 witness: resuming a `processing` session from the pristine state
produces only the informational toast and changes no result or status. -/
theorem C4_witness :
    (handleSessionSelect c4Session initialAppState).1.uploadStatus =
      initialAppState.uploadStatus ∧
    (handleSessionSelect c4Session initialAppState).1.processStatus =
      initialAppState.processStatus ∧
    (handleSessionSelect c4Session initialAppState).1.uploadResult =
      initialAppState.uploadResult ∧
    (handleSessionSelect c4Session initialAppState).1.processResult =
      initialAppState.processResult ∧
    (handleSessionSelect c4Session initialAppState).2 =
      [AppEffect.toast ToastKind.info
        ("Session " ++ c4Session.id ++ " sélectionnée (statut: " ++ c4Session.status ++ ")")] := by
  have h := C4_other_status c4Session initialAppState (by decide) (by decide)
  exact ⟨h.1, h.2.1, h.2.2.1, h.2.2.2.1, h.2.2.2.2.2.2.2.2.2⟩

/-- C4 counterexample: resuming a `processing` session from a state whose
original-file slot is occupied clears that slot — the handler's initial
reset touches the file slots, so they are not left unchanged as
claimed. -/
theorem C4_counterexample :
    (handleSessionSelect c4Session c4State).1.originalFile = none ∧
    c4State.originalFile ≠ none := by
  refine ⟨rfl, by decide⟩

/-!  ## C5 — hook state discipline  -/

/-- C5 (amended): the operations `uploadFile`, `processFile`,
`getSessions`, `deleteSession` and `getHealth` each funnel through the
request primitive, whose event trace always starts by setting `loading`
true and clearing the shared `error`, and ends by setting `loading`
false on every exit path (success and failure); `downloadFile`, by
contrast, issues its own fetch and never touches the shared
loading/error state. -/
theorem C5_hook_discipline :
    (∀ (file : FileObj) (resp : JsonResponse), uploadFile file resp =
      makeRequest "/upload"
        { method := "POST", form := [("file", FormValue.fileVal file)] } resp) ∧
    (∀ (file : FileObj) (sid strat : String) (resp : JsonResponse),
      processFile file sid strat resp =
        makeRequest "/process"
          { method := "POST"
            form := [("file", FormValue.fileVal file), ("session_id", FormValue.strVal sid),
                     ("strategy", FormValue.strVal strat)] } resp) ∧
    (∀ resp : JsonResponse, getSessions resp =
      makeRequest "/sessions" { method := "GET", form := [] } resp) ∧
    (∀ (sid : String) (resp : JsonResponse), deleteSession sid resp =
      makeRequest ("/sessions/" ++ sid) { method := "DELETE", form := [] } resp) ∧
    (∀ resp : JsonResponse, getHealth resp =
      makeRequest "/health" { method := "GET", form := [] } resp) ∧
    (∀ (endpoint : String) (opts : RequestOptions) (resp : JsonResponse),
      (makeRequest endpoint opts resp).2.head? = some (HookEvent.setLoading true) ∧
      (makeRequest endpoint opts resp).2[1]? = some (HookEvent.setError none) ∧
      (makeRequest endpoint opts resp).2.getLast? = some (HookEvent.setLoading false)) ∧
    (∀ (type sid : String) (resp : BlobResponse),
      (downloadFile type sid resp).2.all
        (fun e => !(isLoadingEvent e) && !(isErrorEvent e)) = true) := by
  refine ⟨fun _ _ => rfl, fun _ _ _ _ => rfl, fun _ => rfl, fun _ _ => rfl, fun _ => rfl,
    fun endpoint opts resp => ?_, fun type sid resp => ?_⟩
  · unfold makeRequest
    dsimp only
    split <;> exact ⟨rfl, rfl, rfl⟩
  · unfold downloadFile
    dsimp only
    split <;> rfl

/-- Successful download response used for the C5 counterexample. -/
def c5Resp : BlobResponse :=
  { status := 200, errBody := Json.null, blobSize := 7, contentDisposition := none }

/-- C5 counterexample: a (successful) `downloadFile` call's whole event
trace is the bare fetch — it contains no `setLoading` and no `setError`
event at all, so `downloadFile` neither funnels through the request
primitive nor participates in the shared loading/error discipline the
claim asserts for every public operation. -/
theorem C5_counterexample :
    (downloadFile "template" "s1" c5Resp).2 =
      [HookEvent.fetchReq { method := "GET", url := "/download/template/s1", form := [] }] ∧
    (downloadFile "template" "s1" c5Resp).2.all (fun e => !(isLoadingEvent e)) = true ∧
    (downloadFile "template" "s1" c5Resp).1 =
      Except.ok { filename := "template_s1.xlsx", size := 7 } := by
  refine ⟨rfl, rfl, rfl⟩

/-!  ## C6 — progress indicator  -/

/-- C6: steps below the current index are `completed`; the step at the
current index is `error` when the overall status is `error`, `processing`
when it is `processing` or `uploading`, and `current` when it is `idle`;
steps above the current index are `pending`; the global percentage is
`round(currentStep / (totalSteps - 1) * 100)`, which for 5 steps yields
0, 25, 50, 75, 100 — and at current step 2 with status `processing` the
five steps read completed, completed, processing, pending, pending with
a percentage of 50. -/
theorem C6_progress_indicator (currentStep stepIndex : Nat) (status : String) :
    (stepIndex < currentStep → getStepStatus currentStep status stepIndex = "completed") ∧
    (status = "error" → getStepStatus currentStep status currentStep = "error") ∧
    (status = "processing" ∨ status = "uploading" →
      getStepStatus currentStep status currentStep = "processing") ∧
    (status = "idle" → getStepStatus currentStep status currentStep = "current") ∧
    (currentStep < stepIndex → getStepStatus currentStep status stepIndex = "pending") ∧
    (∀ totalSteps : Nat, progressPercent currentStep totalSteps =
      round (((currentStep : ℚ) / ((totalSteps : ℚ) - 1)) * 100)) ∧
    (progressPercent 0 5 = 0 ∧ progressPercent 1 5 = 25 ∧ progressPercent 2 5 = 50 ∧
      progressPercent 3 5 = 75 ∧ progressPercent 4 5 = 100) ∧
    (getStepStatus 2 "processing" 0 = "completed" ∧
      getStepStatus 2 "processing" 1 = "completed" ∧
      getStepStatus 2 "processing" 2 = "processing" ∧
      getStepStatus 2 "processing" 3 = "pending" ∧
      getStepStatus 2 "processing" 4 = "pending") := by
  refine ⟨fun hlt => ?_, fun herr => ?_, fun hproc => ?_, fun hidle => ?_, fun hgt => ?_,
    fun totalSteps => rfl, ⟨?_, ?_, ?_, ?_, ?_⟩, ⟨rfl, rfl, rfl, rfl, rfl⟩⟩
  · simp [getStepStatus, hlt]
  · simp [getStepStatus, herr]
  · rcases hproc with h | h <;> subst h <;> simp [getStepStatus]
  · subst hidle; simp [getStepStatus]
  · simp [getStepStatus, Nat.lt_irrefl, Nat.not_lt.mpr (Nat.le_of_lt hgt),
      Nat.ne_of_lt' hgt]
  · norm_num [progressPercent]
  · norm_num [progressPercent, round_eq]
  · norm_num [progressPercent]
  · norm_num [progressPercent, round_eq]
  · norm_num [progressPercent]

/-- C6 witness: the spec's concrete scenario (current step 2, status
`processing`), obtained by instantiating `C6_progress_indicator`. -/
theorem C6_witness :
    getStepStatus 2 "processing" 1 = "completed" ∧
    getStepStatus 2 "processing" 2 = "processing" ∧
    getStepStatus 2 "processing" 3 = "pending" :=
  ⟨(C6_progress_indicator 2 1 "processing").1 (by decide),
   (C6_progress_indicator 2 2 "processing").2.2.1 (Or.inl rfl),
   (C6_progress_indicator 2 3 "processing").2.2.2.2.1 (by decide)⟩

/-!  ## C7 — fields of the POST /process requests  -/

/-- C7 (amended): the hook's `processFile` posts to `/process` a
multipart form holding exactly the fields `file`, `session_id` and
`strategy` (with `strategy` supplied as `"FIFO"` by the default
parameter when the caller passes none); the orchestrator's Phase-2
trigger `handleProcessCompleted`, however, posts only the fields `file`
and `session_id` — its form carries no `strategy` field. -/
theorem C7_process_form_fields :
    (∀ (file : FileObj) (sid strat : String) (resp : JsonResponse),
      hookRequests (processFile file sid strat resp).2 =
        [{ method := "POST", url := "/process"
           form := [("file", FormValue.fileVal file), ("session_id", FormValue.strVal sid),
                    ("strategy", FormValue.strVal strat)] }]) ∧
    (∀ (file : FileObj) (sid : String) (resp : JsonResponse),
      processFileDefault file sid resp = processFile file sid "FIFO" resp) ∧
    (∀ (st : AppState) (resp : JsonResponse) (file : FileObj),
      st.completedFile = some file →
      jsTruthyOpt (st.uploadResult.bind (fun ur => getField ur "session_id")) = true →
      appRequests (handleProcessCompleted st resp).2 =
        [{ method := "POST", url := "/process"
           form := [("file", FormValue.fileVal file),
                    ("session_id", FormValue.strVal (jsToString
                      ((st.uploadResult.bind (fun ur => getField ur "session_id")).getD
                        Json.null)))] }]) := by
  refine ⟨fun file sid strat resp => ?_, fun _ _ _ => rfl,
    fun st resp file hfile hsid => ?_⟩
  · unfold processFile makeRequest
    dsimp only
    split <;> rfl
  · obtain ⟨of, cf, us, ps, ur, pr, er, cs, pd⟩ := st
    dsimp only at hfile hsid ⊢
    subst hfile
    unfold handleProcessCompleted
    dsimp only
    simp only [hsid, if_true]
    split <;> rfl

/-- Orchestrator state ready for the Phase-2 trigger: a completed file is
selected and Phase 1 stored the session id `abc123`. -/
def c7State : AppState :=
  { initialAppState with
    completedFile := some
      { name := "done.xlsx", size := 10, mimeType := none, lastModified := none,
        isMock := none }
    uploadResult := some (Json.obj [("session_id", Json.str "abc123")]) }

/-- C7 witness: at the ready state, the hook's request carries the three
fields and the orchestrator's request carries exactly `file` and
`session_id`. -/
theorem C7_witness :
    hookRequests (processFile
        { name := "done.xlsx", size := 10, mimeType := none, lastModified := none,
          isMock := none } "abc123" "FIFO"
        { status := 200, body := Json.obj [] }).2 =
      [{ method := "POST", url := "/process"
         form := [("file", FormValue.fileVal
                    { name := "done.xlsx", size := 10, mimeType := none,
                      lastModified := none, isMock := none }),
                  ("session_id", FormValue.strVal "abc123"),
                  ("strategy", FormValue.strVal "FIFO")] }] ∧
    appRequests (handleProcessCompleted c7State { status := 200, body := Json.obj [] }).2 =
      [{ method := "POST", url := "/process"
         form := [("file", FormValue.fileVal
                    { name := "done.xlsx", size := 10, mimeType := none,
                      lastModified := none, isMock := none }),
                  ("session_id", FormValue.strVal "abc123")] }] := by
  refine ⟨C7_process_form_fields.1
      { name := "done.xlsx", size := 10, mimeType := none, lastModified := none,
        isMock := none } "abc123" "FIFO" { status := 200, body := Json.obj [] }, ?_⟩
  have h := C7_process_form_fields.2.2 c7State { status := 200, body := Json.obj [] }
      { name := "done.xlsx", size := 10, mimeType := none, lastModified := none,
        isMock := none } rfl rfl
  simpa [c7State, initialAppState, getField, getField.lookupField, jsToString_str] using h

/-- C7 counterexample: the orchestrator's Phase-2 trigger issues a POST
to `/process` whose form field names are exactly `file` and `session_id`
— `strategy` is absent, refuting the claim that every POST to `/process`
carries all three fields. -/
theorem C7_counterexample :
    (appRequests (handleProcessCompleted c7State
        { status := 200, body := Json.obj [] }).2).map
      (fun r => (r.url, r.form.map Prod.fst)) = [("/process", ["file", "session_id"])] ∧
    ("strategy" ∈ (["file", "session_id"] : List String)) = False := by
  refine ⟨rfl, by simp⟩

/-!  ## C8 — quick-panel action gating  -/

/-- C8 (amended): the quick panel renders, per session, enabled
template-download and resume actions for `template_generated`, enabled
template-download, final-download and resume actions for `completed`,
and for every other status a single resume button with no download
actions — that button is disabled and relabeled exactly when the status
is `error` (label `Erreur`) or `processing` (label `En cours...`), and
otherwise (for example `archived` or `uploading`) it is enabled and
labeled `Reprendre`. -/
theorem C8_quick_panel_gating (status : String) :
    (status = "template_generated" → sessionActions status =
      [{ action := "download_template", label := "Template", disabled := false },
       { action := "resume", label := "Reprendre", disabled := false }]) ∧
    (status = "completed" → sessionActions status =
      [{ action := "download_template", label := "Template", disabled := false },
       { action := "download_final", label := "Final", disabled := false },
       { action := "resume", label := "Reprendre", disabled := false }]) ∧
    (status = "error" → sessionActions status =
      [{ action := "resume", label := "Erreur", disabled := true }]) ∧
    (status = "processing" → sessionActions status =
      [{ action := "resume", label := "En cours...", disabled := true }]) ∧
    (status ≠ "template_generated" → status ≠ "completed" → status ≠ "error" →
      status ≠ "processing" →
      sessionActions status =
        [{ action := "resume", label := "Reprendre", disabled := false }]) := by
  refine ⟨fun h => by subst h; rfl, fun h => by subst h; rfl, fun h => by subst h; rfl,
    fun h => by subst h; rfl, fun h1 h2 h3 h4 => ?_⟩
  simp [sessionActions, h1, h2, h3, h4, List.contains]

/-- C8 witness: a `processing` session's row shows the single disabled,
relabeled resume button. -/
theorem C8_witness :
    sessionActions "processing" =
      [{ action := "resume", label := "En cours...", disabled := true }] :=
  (C8_quick_panel_gating "processing").2.2.2.1 rfl

/-- C8 counterexample: a session with status `archived` — outside
`{template_generated, completed}` — still gets an enabled, clickable
resume button labeled `Reprendre`, so resumption actions are not
disabled for every status outside that set as the claim asserts. -/
theorem C8_counterexample :
    sessionActions "archived" =
      [{ action := "resume", label := "Reprendre", disabled := false }] ∧
    ("archived" : String) ≠ "template_generated" ∧
    ("archived" : String) ≠ "completed" := by
  refine ⟨rfl, by decide, by decide⟩

/-!  ## C9 — mock-file flag  -/

/-- Session resumed in the C9 scenario. -/
def c9Session : Session :=
  { id := "s1"
    status := "template_generated"
    original_filename := some "inv.csv"
    created_at := none
    stats := none }

/-- C9: the original-file placeholder synthesized during session
resumption is the object literal `{ name, size: 0 }` — its `isMock`
property is absent (`none`), even though the dedicated helper
`createMockFile` (which the resumption path does not call) does set
`isMock: true`.  The claim — every placeholder is explicitly flagged —
matches the helper and the rendering code that branches on `isMock`, and
the resumption path violates it. -/
theorem C9_mock_flag_missing :
    (handleSessionSelect c9Session initialAppState).1.originalFile =
      some { name := "inv.csv", size := 0, mimeType := none, lastModified := none,
             isMock := none } ∧
    ((handleSessionSelect c9Session initialAppState).1.originalFile.map FileObj.isMock) =
      some none ∧
    (createMockFile "inv.csv" 0 0).isMock = some true := by
  refine ⟨rfl, rfl, rfl⟩

/-!  ## C10 — dashboard bulk delete  -/

/-- When every delete call succeeds, the sequential loop issues exactly
one request per selected id, in selection order, and no abort occurs. -/
theorem bulkDeleteLoop_ok (del : String → Except String Unit) :
    ∀ ids : List String, (∀ id ∈ ids, del id = Except.ok ()) →
      bulkDeleteLoop del ids = (ids, none) := by
  intro ids h
  induction ids with
  | nil => rfl
  | cons id rest ih =>
    have h1 : del id = Except.ok () := h id (by simp)
    have h2 := ih (fun x hx => h x (by simp [hx]))
    simp [bulkDeleteLoop, h1, h2]

/-- C10: for a non-empty selection whose delete calls all succeed, the
bulk delete action issues exactly one delete request per selected
session, in selection order (the loop awaits each call before issuing
the next — the trace equals the selection list), then removes exactly
the selected sessions from the local list and clears the selection. -/
theorem C10_bulk_delete (del : String → Except String Unit)
    (selected : List String) (sessions : List Session)
    (hne : selected ≠ [])
    (hok : ∀ id ∈ selected, del id = Except.ok ()) :
    (handleBulkAction del "delete" selected sessions).2.2 = selected ∧
    (handleBulkAction del "delete" selected sessions).2.2.length = selected.length ∧
    (handleBulkAction del "delete" selected sessions).1 =
      sessions.filter (fun s => !(selected.contains s.id)) ∧
    (∀ s : Session, s ∈ (handleBulkAction del "delete" selected sessions).1 ↔
      s ∈ sessions ∧ s.id ∉ selected) ∧
    (handleBulkAction del "delete" selected sessions).2.1 = [] := by
  have hloop := bulkDeleteLoop_ok del selected hok
  have hne' : selected.isEmpty = false := by
    cases selected with
    | nil => exact absurd rfl hne
    | cons a l => rfl
  refine ⟨?_, ?_, ?_, fun s => ?_, ?_⟩ <;>
    simp [handleBulkAction, hne', hloop, List.mem_filter]

/-- Completed session `a` of the C10 scenario. -/
def c10A : Session :=
  { id := "a", status := "completed", original_filename := none, created_at := none,
    stats := none }

/-- Errored session `b` of the C10 scenario. -/
def c10B : Session :=
  { id := "b", status := "error", original_filename := none, created_at := none,
    stats := none }

/-- Completed session `c` of the C10 scenario, not selected. -/
def c10C : Session :=
  { id := "c", status := "completed", original_filename := none, created_at := none,
    stats := none }

/-- C10 witness: bulk-deleting the selection `[a, b]` out of sessions
`[a, b, c]` issues the two requests in order, keeps exactly `c`, and
clears the selection. -/
theorem C10_witness :
    (handleBulkAction (fun _ => Except.ok ()) "delete" ["a", "b"]
      [c10A, c10B, c10C]).2.2 = ["a", "b"] ∧
    (handleBulkAction (fun _ => Except.ok ()) "delete" ["a", "b"]
      [c10A, c10B, c10C]).1 = [c10C] ∧
    (handleBulkAction (fun _ => Except.ok ()) "delete" ["a", "b"]
      [c10A, c10B, c10C]).2.1 = [] := by
  have h := C10_bulk_delete (fun _ => Except.ok ()) ["a", "b"] [c10A, c10B, c10C]
    (by decide) (fun id _ => rfl)
  refine ⟨h.1, ?_, h.2.2.2.2⟩
  rw [h.2.2.1]
  rfl

end Quantys
